import Mathlib

/-
Verification of the readiness-gated request-dispatch core of the
whatsapp-web service (src/index.js and src/unnamed/part_000).

The two JavaScript files are shallowly embedded as pure Lean functions.
Every HTTP handler becomes a function from a `Backend` (the record of
fallible operations offered by the wrapped whatsapp-web.js client, each
returning `Except String _` — `.error e` models a thrown error whose
`.message` is `e`) and a request body to a pair
`(Response, List Call)`: the HTTP response produced and the ordered
trace of backend operations the handler invoked.  JavaScript truthiness
on the duck-typed body fields is modelled explicitly (`strTruthy`,
`boolTruthy`, `jsOrInt`, `jsOrStr`).
-/

namespace WWeb

/-- Lifecycle events emitted by the wrapped client, as registered with
`client.on(...)` in both source files. -/
inductive LifecycleEvent where
  | qr
  | loadingScreen
  | changeState
  | authenticated
  | ready
  | disconnected
  | authFailure
  | clientError
  | remoteSessionSaved
deriving DecidableEq, Repr

/-- Effect of one lifecycle event on the module-level `whatsappClient`
variable (modelled as the boolean "handle is set").  In the source only
the `ready` handler assigns `whatsappClient = client` (index.js:102-106,
part_000:81-85); the `disconnected`, `auth_failure` and `error` handlers
merely log and leave the variable untouched. -/
def applyEvent (handleSet : Bool) (e : LifecycleEvent) : Bool :=
  match e with
  | .ready => true
  | _ => handleSet

/-- State of the module-level `whatsappClient` variable after a sequence
of lifecycle events, starting from `null` (index.js:53). -/
def clientHandleSet (events : List LifecycleEvent) : Bool :=
  events.foldl applyEvent false

/-- Modelled from the spec: the readiness enum of `ServiceState`
(spec §3), with transitions as described in spec §4.1 (pairing challenge
→ AWAITING_PAIRING, ready → READY, disconnect → DISCONNECTED, fatal
client error → ERRORED; `authenticated` is an intermediate signal with
no state change).  The code itself has no such enum — its only readiness
notion is `whatsappClient !== null` (`clientHandleSet`); this definition
exists to compare the readiness state of the spec with the gate of the code. -/
inductive SpecReadiness where
  | UNINITIALIZED
  | AWAITING_PAIRING
  | READY
  | DISCONNECTED
  | ERRORED
deriving DecidableEq, Repr

/-- Modelled from the spec: one readiness transition (spec §4.1). -/
def specStep (s : SpecReadiness) (e : LifecycleEvent) : SpecReadiness :=
  match e with
  | .qr => .AWAITING_PAIRING
  | .ready => .READY
  | .disconnected => .DISCONNECTED
  | .clientError => .ERRORED
  | _ => s

/-- Modelled from the spec: the readiness state per the spec after a sequence
of lifecycle events, starting in UNINITIALIZED (spec §3). -/
def specReadinessAfter (events : List LifecycleEvent) : SpecReadiness :=
  events.foldl specStep .UNINITIALIZED

/-- A JSON value as used in the response bodies of the service. -/
inductive JVal where
  | str (s : String)
  | num (n : Int)
  | bool (b : Bool)
deriving DecidableEq, Repr

/-- An HTTP response: status code plus JSON object body (field list in
source order). -/
structure Response where
  status : Nat
  body : List (String × JVal)
deriving DecidableEq, Repr

/-- A media object, as produced by `MessageMedia.fromUrl` or the
`new MessageMedia(mimetype, base64, filename)` constructor.  `data`
stands for the base64 payload. -/
structure MessageMedia where
  mimetype : String
  data : String
  filename : String
deriving DecidableEq, Repr

/-- Result of `axios.get` with an arraybuffer response type: the
downloaded bytes (already base64-encoded, as the base64 conversion of the buffer
produces) and the optional `content-type` response header. -/
structure FetchResp where
  dataB64 : String
  contentType : Option String
deriving DecidableEq, Repr

/-- The message object returned by a successful
`whatsappClient.sendMessage`: the handlers read `id._serialized` and
`timestamp` from it. -/
structure SentMessage where
  idSerialized : String
  timestamp : Int
deriving DecidableEq, Repr

/-- A stored message as returned by `getMessageById`; the forward
handler reads its `type`, `body` and `from` fields. -/
structure StoredMessage where
  msgType : String
  msgBody : Option String
  msgFrom : String
deriving DecidableEq, Repr

/-- The second argument of `whatsappClient.sendMessage`: either a plain
text string or a `MessageMedia`. -/
inductive Payload where
  | text (s : String)
  | media (m : MessageMedia)
deriving DecidableEq, Repr

/-- The options object passed to `sendMessage`. -/
structure SendOptions where
  caption : Option String := none
  quotedMessageId : Option String := none
deriving DecidableEq, Repr

/-- One backend invocation, recorded in the trace of the handler. -/
inductive Call where
  | getChatById (chatId : String)
  | sendStateTyping (chatId : String)
  | wait (ms : Int)
  | clearState (chatId : String)
  | sendMessage (chatId : String) (payload : Payload) (options : SendOptions)
  | fromUrl (url : String)
  | axiosGet (url : String)
  | getMessageById (messageId : String)
  | forward (messageId : String) (chatId : String)
deriving DecidableEq, Repr

/-- The messaging backend: each field is one fallible operation the
handlers await; `.error e` models the operation throwing an error with
message `e`. -/
structure Backend where
  getChatById : String → Except String Unit
  sendStateTyping : String → Except String Unit
  clearState : String → Except String Unit
  sendMessage : String → Payload → SendOptions → Except String SentMessage
  getMessageById : String → Except String (Option StoredMessage)
  forward : String → String → Except String Unit
  fromUrl : String → Except String MessageMedia
  axiosGet : String → Except String FetchResp

/-- JavaScript truthiness of an optional string body field: absent and
`""` are falsy. -/
def strTruthy : Option String → Bool
  | none => false
  | some s => decide (s ≠ "")

/-- JavaScript truthiness of an optional boolean body field. -/
def boolTruthy : Option Bool → Bool
  | none => false
  | some b => b

/-- JavaScript `v || dflt` on an optional number: absent and `0` give
the default, any other value (negative included) is kept. -/
def jsOrInt (v : Option Int) (dflt : Int) : Int :=
  match v with
  | some n => if n = 0 then dflt else n
  | none => dflt

/-- JavaScript `v || dflt` on an optional string: absent and `""` give
the default. -/
def jsOrStr (v : Option String) (dflt : String) : String :=
  match v with
  | some s => if s = "" then dflt else s
  | none => dflt

/-- JavaScript `v > 0` on an optional number (`undefined > 0` is
false). -/
def durationPos : Option Int → Bool
  | some n => decide (0 < n)
  | none => false

/-- The supplied key: the X-API-Key header, or the api_key query
parameter when the header is falsy
(index.js:40, part_000:38). -/
def providedKey (headerKey queryKey : Option String) : Option String :=
  match headerKey with
  | some h => if h = "" then queryKey else some h
  | none => queryKey

/-- The 401 response produced by `authenticateAPI`. -/
def unauthorized : Response :=
  ⟨401, [("error", .str "Unauthorized"), ("message", .str "Valid API key required")]⟩

/-- The `authenticateAPI` middleware (index.js:39-50, part_000:37-48):
`some r` means the request is rejected with `r` before the handler
runs; `none` means `next()` is called. -/
def authenticateAPI (apiKey : String) (headerKey queryKey : Option String) :
    Option Response :=
  match providedKey headerKey queryKey with
  | none => some unauthorized
  | some k => if k = "" ∨ k ≠ apiKey then some unauthorized else none

/-- The 503 response of the readiness gate (`if (!whatsappClient)`). -/
def notReady : Response := ⟨503, [("error", .str "WhatsApp client not ready")]⟩

/-- A catch-branch 500 response: fixed label plus the message of the thrown error, passed through verbatim. -/
def serverError (label e : String) : Response :=
  ⟨500, [("error", .str label), ("message", .str e)]⟩

/-- The 200 response of a successful send:
`{success:true, messageId, timestamp}`. -/
def okSendResponse (m : SentMessage) : Response :=
  ⟨200, [("success", .bool true), ("messageId", .str m.idSerialized),
         ("timestamp", .num m.timestamp)]⟩

/-- Tail of every send handler: `await whatsappClient.sendMessage(...)`,
then `if (show_typing && chat) await chat.clearState();`, then the 200
response — any throw lands in the catch of the handler as a 500 carrying the
message of the error.  `typedChat` is the truth value of `show_typing && chat`
at the clear site. -/
def dispatchSend (B : Backend) (label chatId : String) (payload : Payload)
    (options : SendOptions) (typedChat : Bool) (pre : List Call) :
    Response × List Call :=
  match B.sendMessage chatId payload options with
  | .error e => (serverError label e, pre ++ [.sendMessage chatId payload options])
  | .ok m =>
    if typedChat then
      match B.clearState chatId with
      | .error e =>
        (serverError label e,
         pre ++ [.sendMessage chatId payload options, .clearState chatId])
      | .ok _ =>
        (okSendResponse m,
         pre ++ [.sendMessage chatId payload options, .clearState chatId])
    else
      (okSendResponse m, pre ++ [.sendMessage chatId payload options])

/-- Body of POST /api/sendMessage and /sendMessage. -/
structure SendMessageBody where
  chatId : Option String := none
  message : Option String := none
  reply_to : Option String := none
  show_typing : Option Bool := none
  typing_duration : Option Int := none
deriving DecidableEq, Repr

/-- The POST /api/sendMessage handler (index.js:262-318; the part_000
/sendMessage handler at lines 428-485 is identical except for an extra
`session` echo field).  Readiness gate, then `if (!chatId)` → 400, then
`if (!message)` → 400, then the optional typing bracket
(`getChatById`, `sendStateTyping`, wait `typing_duration || 2000`),
then dispatch; `chat` is non-null at the clear site exactly when the
`show_typing` branch ran. -/
def sendMessageHandler (B : Backend) (ready : Bool) (body : SendMessageBody) :
    Response × List Call :=
  if ready then
    if strTruthy body.chatId then
      if strTruthy body.message then
        let chatId := body.chatId.getD ""
        let msg := body.message.getD ""
        let options : SendOptions :=
          if strTruthy body.reply_to then { quotedMessageId := body.reply_to } else {}
        if boolTruthy body.show_typing then
          match B.getChatById chatId with
          | .error e => (serverError "Failed to send message" e, [.getChatById chatId])
          | .ok _ =>
            match B.sendStateTyping chatId with
            | .error e =>
              (serverError "Failed to send message" e,
               [.getChatById chatId, .sendStateTyping chatId])
            | .ok _ =>
              let waitTime := jsOrInt body.typing_duration 2000
              dispatchSend B "Failed to send message" chatId (.text msg) options true
                [.getChatById chatId, .sendStateTyping chatId, .wait waitTime]
        else
          dispatchSend B "Failed to send message" chatId (.text msg) options false []
      else (⟨400, [("error", .str "message is required")]⟩, [])
    else (⟨400, [("error", .str "chatId is required")]⟩, [])
  else (notReady, [])

/-- The `file` object of a media request body. -/
structure FileRef where
  url : Option String := none
  mimetype : Option String := none
  filename : Option String := none
deriving DecidableEq, Repr

/-- Body of the media endpoints. -/
structure SendMediaBody where
  chatId : Option String := none
  caption : Option String := none
  file : Option FileRef := none
  show_typing : Option Bool := none
  typing_duration : Option Int := none
deriving DecidableEq, Repr

/-- Shared tail of the index.js /api/sendMedia handler:
`MessageMedia.fromUrl(file.url)` then send (index.js:158-173). -/
def sendMediaIndexDispatch (B : Backend) (chatId url : String)
    (options : SendOptions) (typedChat : Bool) (pre : List Call) :
    Response × List Call :=
  match B.fromUrl url with
  | .error e => (serverError "Failed to send media" e, pre ++ [.fromUrl url])
  | .ok media =>
    dispatchSend B "Failed to send media" chatId (.media media) options typedChat
      (pre ++ [.fromUrl url])

/-- The POST /api/sendMedia handler of index.js (lines 129-183).
Typing bracket only when `show_typing && typing_duration > 0`
(index.js:148) — no default duration; `chat` is non-null at the clear
site exactly when that branch ran. -/
def sendMediaIndexHandler (B : Backend) (ready : Bool) (body : SendMediaBody) :
    Response × List Call :=
  if ready then
    if strTruthy body.chatId then
      match body.file with
      | some f =>
        if strTruthy f.url then
          let chatId := body.chatId.getD ""
          let url := f.url.getD ""
          let options : SendOptions := { caption := some (body.caption.getD "") }
          if boolTruthy body.show_typing && durationPos body.typing_duration then
            match B.getChatById chatId with
            | .error e => (serverError "Failed to send media" e, [.getChatById chatId])
            | .ok _ =>
              match B.sendStateTyping chatId with
              | .error e =>
                (serverError "Failed to send media" e,
                 [.getChatById chatId, .sendStateTyping chatId])
              | .ok _ =>
                sendMediaIndexDispatch B chatId url options true
                  [.getChatById chatId, .sendStateTyping chatId,
                   .wait (body.typing_duration.getD 0)]
          else
            sendMediaIndexDispatch B chatId url options false []
        else (⟨400, [("error", .str "file.url is required")]⟩, [])
      | none => (⟨400, [("error", .str "file.url is required")]⟩, [])
    else (⟨400, [("error", .str "chatId is required")]⟩, [])
  else (notReady, [])

/-- The media constructed on the fallback path (part_000:162-166):
`new MessageMedia` applied to the mimetype hint (falling back to the
content-type header and then to application/octet-stream), the base64
bytes, and the filename hint (falling back to media). -/
def fallbackMedia (f : FileRef) (resp : FetchResp) : MessageMedia :=
  ⟨jsOrStr f.mimetype (jsOrStr resp.contentType "application/octet-stream"),
   resp.dataB64,
   jsOrStr f.filename "media"⟩

/-- The fallback path of part_000 /api/sendMedia (lines 156-182),
entered with `e1` the message of the primary-path error: raw
`axios.get`, manual `MessageMedia` construction, re-send; if either
step throws, the aggregated error
`Media sending failed: e1. Fallback also failed: e2` is thrown and
caught by the outer catch as a 500. -/
def sendMediaFallbackP0 (B : Backend) (chatId url : String)
    (options : SendOptions) (f : FileRef) (e1 : String) (pre : List Call) :
    Response × List Call :=
  match B.axiosGet url with
  | .error e2 =>
    (serverError "Failed to send media"
      ("Media sending failed: " ++ e1 ++ ". Fallback also failed: " ++ e2),
     pre ++ [.axiosGet url])
  | .ok resp =>
    match B.sendMessage chatId (.media (fallbackMedia f resp)) options with
    | .error e2 =>
      (serverError "Failed to send media"
        ("Media sending failed: " ++ e1 ++ ". Fallback also failed: " ++ e2),
       pre ++ [.axiosGet url,
               .sendMessage chatId (.media (fallbackMedia f resp)) options])
    | .ok m =>
      (okSendResponse m,
       pre ++ [.axiosGet url,
               .sendMessage chatId (.media (fallbackMedia f resp)) options])

/-- The POST /api/sendMedia handler of part_000 (lines 108-204).  The
typing bracket is commented out in this variant, so `chat` stays null
and no clear is ever issued; the primary path (`fromUrl` then
`sendMessage`) runs inside one try whose catch enters the fallback
path. -/
def apiSendMediaP0Handler (B : Backend) (ready : Bool) (body : SendMediaBody) :
    Response × List Call :=
  if ready then
    if strTruthy body.chatId then
      match body.file with
      | some f =>
        if strTruthy f.url then
          let chatId := body.chatId.getD ""
          let url := f.url.getD ""
          let options : SendOptions := { caption := some (body.caption.getD "") }
          match B.fromUrl url with
          | .ok media =>
            match B.sendMessage chatId (.media media) options with
            | .ok m =>
              (okSendResponse m,
               [.fromUrl url, .sendMessage chatId (.media media) options])
            | .error e1 =>
              sendMediaFallbackP0 B chatId url options f e1
                [.fromUrl url, .sendMessage chatId (.media media) options]
          | .error e1 => sendMediaFallbackP0 B chatId url options f e1 [.fromUrl url]
        else (⟨400, [("error", .str "file.url is required")]⟩, [])
      | none => (⟨400, [("error", .str "file.url is required")]⟩, [])
    else (⟨400, [("error", .str "chatId is required")]⟩, [])
  else (notReady, [])

/-- Outcome of the primary path of part_000 /api/sendMedia (the try
block at lines 139-152): `fromUrl`, then the first `sendMessage`. -/
def primaryOutcome (B : Backend) (chatId : String) (options : SendOptions)
    (url : String) : Except String SentMessage :=
  match B.fromUrl url with
  | .error e => .error e
  | .ok media => B.sendMessage chatId (.media media) options

/-- The POST /api/forwardMessage handler of part_000 (lines 207-274),
the defensive variant: validation, `getMessageById` (404 on a falsy
result), `forward`, then a 200 echoing the original identifiers with a
fresh timestamp (`new Date().toISOString()`, passed in as `now`) and
the type of the original message.  The 500 of the inner catch also carries
`details`/`messageType`. -/
def forwardMessageHandler (B : Backend) (ready : Bool)
    (messageId chatId : Option String) (now : String) : Response × List Call :=
  if ready then
    if strTruthy messageId && strTruthy chatId then
      let mid := messageId.getD ""
      let cid := chatId.getD ""
      match B.getMessageById mid with
      | .error e => (serverError "Failed to forward message" e, [.getMessageById mid])
      | .ok none => (⟨404, [("error", .str "Message not found")]⟩, [.getMessageById mid])
      | .ok (some m) =>
        match B.forward mid cid with
        | .error e =>
          (⟨500, [("error", .str "Failed to forward message"), ("details", .str e),
                  ("messageType", .str m.msgType)]⟩,
           [.getMessageById mid, .forward mid cid])
        | .ok _ =>
          (⟨200, [("success", .bool true),
                  ("message", .str "Message forwarded successfully"),
                  ("originalMessageId", .str mid),
                  ("targetChatId", .str cid),
                  ("timestamp", .str now),
                  ("messageType", .str m.msgType)]⟩,
           [.getMessageById mid, .forward mid cid])
    else (⟨400, [("error", .str "messageId and chatId are required")]⟩, [])
  else (notReady, [])

/-- The POST /startTyping handler (index.js:199-227, identical in
part_000). -/
def startTypingHandler (B : Backend) (ready : Bool) (chatId : Option String) :
    Response × List Call :=
  if ready then
    if strTruthy chatId then
      let cid := chatId.getD ""
      match B.getChatById cid with
      | .error e => (serverError "Failed to start typing" e, [.getChatById cid])
      | .ok _ =>
        match B.sendStateTyping cid with
        | .error e =>
          (serverError "Failed to start typing" e, [.getChatById cid, .sendStateTyping cid])
        | .ok _ =>
          (⟨200, [("success", .bool true), ("message", .str "Typing indicator started"),
                  ("chatId", .str cid)]⟩,
           [.getChatById cid, .sendStateTyping cid])
    else (⟨400, [("error", .str "chatId is required")]⟩, [])
  else (notReady, [])

/-- The POST /stopTyping handler (index.js:230-258, identical in
part_000). -/
def stopTypingHandler (B : Backend) (ready : Bool) (chatId : Option String) :
    Response × List Call :=
  if ready then
    if strTruthy chatId then
      let cid := chatId.getD ""
      match B.getChatById cid with
      | .error e => (serverError "Failed to stop typing" e, [.getChatById cid])
      | .ok _ =>
        match B.clearState cid with
        | .error e =>
          (serverError "Failed to stop typing" e, [.getChatById cid, .clearState cid])
        | .ok _ =>
          (⟨200, [("success", .bool true), ("message", .str "Typing indicator stopped"),
                  ("chatId", .str cid)]⟩,
           [.getChatById cid, .clearState cid])
    else (⟨400, [("error", .str "chatId is required")]⟩, [])
  else (notReady, [])

/-- The GET /health handler (index.js:120-126): no auth middleware on
the route; reports `connected` exactly when the `whatsappClient`
variable is set. -/
def healthHandler (events : List LifecycleEvent) (now : String) : Response :=
  ⟨200, [("status", .str "ok"),
         ("whatsapp", .str (if clientHandleSet events then "connected" else "disconnected")),
         ("timestamp", .str now)]⟩

/-- Route composition: the `authenticateAPI` middleware runs first; on
rejection the handler body never executes (empty trace). -/
def withAuth (apiKey : String) (headerKey queryKey : Option String)
    (run : Response × List Call) : Response × List Call :=
  match authenticateAPI apiKey headerKey queryKey with
  | some r => (r, [])
  | none => run

/-- The full POST /api/sendMessage route. -/
def apiSendMessage (apiKey : String) (headerKey queryKey : Option String)
    (B : Backend) (events : List LifecycleEvent) (body : SendMessageBody) :
    Response × List Call :=
  withAuth apiKey headerKey queryKey
    (sendMessageHandler B (clientHandleSet events) body)

/-- The full POST /api/sendMedia route (index.js variant). -/
def apiSendMedia (apiKey : String) (headerKey queryKey : Option String)
    (B : Backend) (events : List LifecycleEvent) (body : SendMediaBody) :
    Response × List Call :=
  withAuth apiKey headerKey queryKey
    (sendMediaIndexHandler B (clientHandleSet events) body)

/-- The full POST /api/sendMedia route (part_000 variant, with the
fallback path). -/
def apiSendMediaWithFallback (apiKey : String) (headerKey queryKey : Option String)
    (B : Backend) (events : List LifecycleEvent) (body : SendMediaBody) :
    Response × List Call :=
  withAuth apiKey headerKey queryKey
    (apiSendMediaP0Handler B (clientHandleSet events) body)

/-- The full POST /api/forwardMessage route (part_000 variant). -/
def apiForwardMessage (apiKey : String) (headerKey queryKey : Option String)
    (B : Backend) (events : List LifecycleEvent)
    (messageId chatId : Option String) (now : String) : Response × List Call :=
  withAuth apiKey headerKey queryKey
    (forwardMessageHandler B (clientHandleSet events) messageId chatId now)

/-- The full POST /startTyping route. -/
def startTypingRoute (apiKey : String) (headerKey queryKey : Option String)
    (B : Backend) (events : List LifecycleEvent) (chatId : Option String) :
    Response × List Call :=
  withAuth apiKey headerKey queryKey
    (startTypingHandler B (clientHandleSet events) chatId)

/-- The full POST /stopTyping route. -/
def stopTypingRoute (apiKey : String) (headerKey queryKey : Option String)
    (B : Backend) (events : List LifecycleEvent) (chatId : Option String) :
    Response × List Call :=
  withAuth apiKey headerKey queryKey
    (stopTypingHandler B (clientHandleSet events) chatId)

/-- Whether a trace entry is a `sendMessage` invocation. -/
def isSendCall : Call → Bool
  | .sendMessage _ _ _ => true
  | _ => false

/-- Number of `sendMessage` invocations in a trace. -/
def countSends (trace : List Call) : Nat := trace.countP isSendCall

/-- A backend on which every operation succeeds, used for concrete
scenario evaluations. -/
def okBackend : Backend where
  getChatById := fun _ => .ok ()
  sendStateTyping := fun _ => .ok ()
  clearState := fun _ => .ok ()
  sendMessage := fun _ _ _ => .ok ⟨"msg1", 111⟩
  getMessageById := fun _ => .ok (some ⟨"chat", some "hello", "111@c.us"⟩)
  forward := fun _ _ => .ok ()
  fromUrl := fun _ => .ok ⟨"image/png", "QUJD", "pic.png"⟩
  axiosGet := fun _ => .ok ⟨"QUJD", some "image/png"⟩

/-! ## Helper lemmas -/

theorem clientHandleSet_iff (events : List LifecycleEvent) :
    clientHandleSet events = true ↔ LifecycleEvent.ready ∈ events := by
  unfold clientHandleSet
  suffices h : ∀ b : Bool,
      events.foldl applyEvent b = true ↔ (b = true ∨ LifecycleEvent.ready ∈ events) by
    simpa using h false
  induction events with
  | nil => intro b; simp
  | cons e es ih =>
    intro b
    simp only [List.foldl_cons, List.mem_cons]
    rw [ih]
    cases e <;> simp [applyEvent]

theorem clientHandleSet_eq_false (events : List LifecycleEvent)
    (h : LifecycleEvent.ready ∉ events) : clientHandleSet events = false := by
  cases hb : clientHandleSet events
  · rfl
  · exact absurd ((clientHandleSet_iff events).mp hb) h

theorem dispatchSend_status_ne_503 (B : Backend) (label chatId : String)
    (payload : Payload) (options : SendOptions) (typedChat : Bool) (pre : List Call) :
    (dispatchSend B label chatId payload options typedChat pre).fst.status ≠ 503 := by
  unfold dispatchSend
  cases B.sendMessage chatId payload options with
  | error e => simp [serverError]
  | ok m =>
    cases typedChat with
    | false => simp [okSendResponse]
    | true =>
      cases B.clearState chatId with
      | error e => simp [serverError]
      | ok u => simp [okSendResponse]

theorem dispatchSend_snd_ne_nil (B : Backend) (label chatId : String)
    (payload : Payload) (options : SendOptions) (typedChat : Bool) (pre : List Call) :
    (dispatchSend B label chatId payload options typedChat pre).snd ≠ [] := by
  unfold dispatchSend
  cases B.sendMessage chatId payload options with
  | error e => simp
  | ok m =>
    cases typedChat with
    | false => simp
    | true =>
      cases B.clearState chatId with
      | error e => simp
      | ok u => simp

theorem countSends_append (l1 l2 : List Call) :
    countSends (l1 ++ l2) = countSends l1 + countSends l2 := by
  unfold countSends
  exact List.countP_append _ _ _

theorem countSends_dispatchSend (B : Backend) (label chatId : String)
    (payload : Payload) (options : SendOptions) (typedChat : Bool) (pre : List Call) :
    countSends (dispatchSend B label chatId payload options typedChat pre).snd =
      countSends pre + 1 := by
  unfold dispatchSend
  split <;> [skip; split <;> [split; skip]] <;>
    simp [countSends_append, countSends, List.countP_cons, isSendCall]

/-! ## C9 -/

/-- C9: GET /health requires no authentication (the route has no
`authenticateAPI` middleware, so `healthHandler` takes no key) and
always returns status 200 with `{status:"ok", whatsapp, timestamp}`,
where `whatsapp` is `"disconnected"` for every request before the
ready signal of the backend has fired and `"connected"` for every request
after it. -/
theorem C9_health (events : List LifecycleEvent) (now : String) :
    healthHandler events now =
      ⟨200, [("status", .str "ok"),
             ("whatsapp",
              .str (if LifecycleEvent.ready ∈ events then "connected" else "disconnected")),
             ("timestamp", .str now)]⟩ := by
  unfold healthHandler
  by_cases h : LifecycleEvent.ready ∈ events
  · have hb : clientHandleSet events = true := (clientHandleSet_iff events).mpr h
    simp [hb, h]
  · have hb : clientHandleSet events = false := clientHandleSet_eq_false events h
    simp [hb, h]

/-! ## C7 -/

/-- C7: for every request to any authenticated endpoint whose supplied
key (X-API-Key header or api_key query parameter) is missing or not
exactly equal to the configured secret, the response status is exactly
401 and no side effect occurs (empty backend trace).  The auth gate
runs before the readiness and validation checks: the conclusion holds
for every lifecycle-event history and every (possibly invalid) body. -/
theorem C7_auth_gate (apiKey : String) (headerKey queryKey : Option String)
    (B : Backend) (events : List LifecycleEvent)
    (smBody : SendMessageBody) (mdBody mdBody2 : SendMediaBody)
    (fwdMessageId fwdChatId tyChatId spChatId : Option String) (now : String)
    (hbad : ∀ k, providedKey headerKey queryKey = some k → k ≠ apiKey) :
    apiSendMessage apiKey headerKey queryKey B events smBody = (unauthorized, []) ∧
    apiSendMedia apiKey headerKey queryKey B events mdBody = (unauthorized, []) ∧
    apiSendMediaWithFallback apiKey headerKey queryKey B events mdBody2 = (unauthorized, []) ∧
    apiForwardMessage apiKey headerKey queryKey B events fwdMessageId fwdChatId now =
      (unauthorized, []) ∧
    startTypingRoute apiKey headerKey queryKey B events tyChatId = (unauthorized, []) ∧
    stopTypingRoute apiKey headerKey queryKey B events spChatId = (unauthorized, []) ∧
    unauthorized.status = 401 := by
  have hauth : authenticateAPI apiKey headerKey queryKey = some unauthorized := by
    unfold authenticateAPI
    cases hp : providedKey headerKey queryKey with
    | none => rfl
    | some k =>
      have hk : k ≠ apiKey := hbad k hp
      simp [hk]
  simp [apiSendMessage, apiSendMedia, apiSendMediaWithFallback, apiForwardMessage,
        startTypingRoute, stopTypingRoute, withAuth, hauth, unauthorized]

/-- Witness for C7 at a concrete wrong key. -/
theorem C7_auth_gate_witness :
    apiSendMessage "secret" (some "wrong") none okBackend [.ready]
      { chatId := some "111@c.us", message := some "hi" } = (unauthorized, []) ∧
    unauthorized.status = 401 := by
  have h := C7_auth_gate "secret" (some "wrong") none okBackend [.ready]
    { chatId := some "111@c.us", message := some "hi" } {} {} none none none none "t"
    (by intro k hk; simp [providedKey] at hk; subst hk; decide)
  exact ⟨h.1, h.2.2.2.2.2.2⟩

/-! ## C8 -/

/-- C8: for every sendMessage request that passes the auth and
readiness gates (modelled by running the handler with the gate value
true) but is missing `chatId` or missing `message`, the response
status is 400 and the error body names the specific missing field;
`chatId` is checked first (the first conjunct applies whenever `chatId`
is missing, even if `message` is missing too). -/
theorem C8_sendMessage_validation (B : Backend) (body : SendMessageBody) :
    (strTruthy body.chatId = false →
      sendMessageHandler B true body =
        (⟨400, [("error", .str "chatId is required")]⟩, [])) ∧
    (strTruthy body.chatId = true → strTruthy body.message = false →
      sendMessageHandler B true body =
        (⟨400, [("error", .str "message is required")]⟩, [])) := by
  constructor
  · intro h
    simp [sendMessageHandler, h]
  · intro h1 h2
    simp [sendMessageHandler, h1, h2]

/-- Witness for C8: a body missing both fields yields 400 naming
`chatId`; a body with only `chatId` yields 400 naming `message`. -/
theorem C8_sendMessage_validation_witness :
    sendMessageHandler okBackend true {} =
      (⟨400, [("error", JVal.str "chatId is required")]⟩, []) ∧
    sendMessageHandler okBackend true { chatId := some "111@c.us" } =
      (⟨400, [("error", JVal.str "message is required")]⟩, []) :=
  ⟨(C8_sendMessage_validation okBackend {}).1 rfl,
   (C8_sendMessage_validation okBackend { chatId := some "111@c.us" }).2 (by decide) rfl⟩

/-! ## C1 -/

/-- C1 counterexample: after the event history [ready, disconnected]
the readiness state per the spec is DISCONNECTED ≠ READY, yet a sendMessage
request with a valid key and valid fields is answered 200 and the
backend is invoked (non-empty trace) — not 503 with no backend call as
the claim requires.  The gate in the code checks only that the
`whatsappClient` variable was ever set, and the `disconnected` handler
does not clear it. -/
theorem C1_counterexample :
    specReadinessAfter [.ready, .disconnected] ≠ .READY ∧
    (apiSendMessage "secret" (some "secret") none okBackend [.ready, .disconnected]
      { chatId := some "111@c.us", message := some "hi" }).fst.status = 200 ∧
    (apiSendMessage "secret" (some "secret") none okBackend [.ready, .disconnected]
      { chatId := some "111@c.us", message := some "hi" }).snd ≠ [] := by
  refine ⟨by decide, by decide, by decide⟩

/-- C1 amended: for every request to a dispatch endpoint (sendMessage,
sendMedia in both variants, forwardMessage, startTyping, stopTyping)
arriving before the first ready signal has fired (which covers
UNINITIALIZED, AWAITING_PAIRING, and DISCONNECTED/ERRORED occurring
before any ready — but not after one), the response status is exactly
503 and the messaging backend is never invoked (empty trace); the
readiness check is performed before any input validation, so the
conclusion holds for arbitrary (e.g. empty) bodies. -/
theorem C1_amended (apiKey : String) (headerKey queryKey : Option String)
    (B : Backend) (events : List LifecycleEvent)
    (smBody : SendMessageBody) (mdBody mdBody2 : SendMediaBody)
    (fwdMessageId fwdChatId tyChatId spChatId : Option String) (now : String)
    (hAuth : authenticateAPI apiKey headerKey queryKey = none)
    (hNotReady : LifecycleEvent.ready ∉ events) :
    apiSendMessage apiKey headerKey queryKey B events smBody = (notReady, []) ∧
    apiSendMedia apiKey headerKey queryKey B events mdBody = (notReady, []) ∧
    apiSendMediaWithFallback apiKey headerKey queryKey B events mdBody2 = (notReady, []) ∧
    apiForwardMessage apiKey headerKey queryKey B events fwdMessageId fwdChatId now =
      (notReady, []) ∧
    startTypingRoute apiKey headerKey queryKey B events tyChatId = (notReady, []) ∧
    stopTypingRoute apiKey headerKey queryKey B events spChatId = (notReady, []) ∧
    notReady.status = 503 := by
  have hb : clientHandleSet events = false := clientHandleSet_eq_false events hNotReady
  refine ⟨?_, ?_, ?_, ?_, ?_, ?_, rfl⟩ <;>
    simp [apiSendMessage, apiSendMedia, apiSendMediaWithFallback, apiForwardMessage,
          startTypingRoute, stopTypingRoute, withAuth, hAuth, hb,
          sendMessageHandler, sendMediaIndexHandler, apiSendMediaP0Handler,
          forwardMessageHandler, startTypingHandler, stopTypingHandler]

/-- Witness for C1 amended: concrete not-yet-ready history with a
missing-field body still yields 503, not 400. -/
theorem C1_amended_witness :
    apiSendMessage "secret" (some "secret") none okBackend [.qr, .authenticated] {} =
      (notReady, []) ∧ notReady.status = 503 := by
  have h := C1_amended "secret" (some "secret") none okBackend [.qr, .authenticated]
    {} {} {} none none none none "t" (by decide) (by decide)
  exact ⟨h.1, h.2.2.2.2.2.2⟩

/-! ## C2 -/

/-- C2: the forward operation (part_000 /api/forwardMessage, the
defensive variant), given (messageId, chatId), responds 400 when either
field is missing, 404 when the message lookup by identifier finds
nothing, and on success responds 200 with a body echoing the original
message identifier and target chat identifier plus a freshly generated
timestamp (`now`) and the type of the original message; the success body
contains no `messageId` field and the trace contains no `sendMessage`
call, so no new message identifier is issued. -/
theorem C2_forward (B : Backend) (messageId chatId : Option String) (now : String) :
    ((strTruthy messageId = false ∨ strTruthy chatId = false) →
      forwardMessageHandler B true messageId chatId now =
        (⟨400, [("error", .str "messageId and chatId are required")]⟩, [])) ∧
    (∀ mid cid, messageId = some mid → chatId = some cid → mid ≠ "" → cid ≠ "" →
      B.getMessageById mid = .ok none →
      forwardMessageHandler B true messageId chatId now =
        (⟨404, [("error", .str "Message not found")]⟩, [.getMessageById mid])) ∧
    (∀ mid cid (m : StoredMessage), messageId = some mid → chatId = some cid →
      mid ≠ "" → cid ≠ "" →
      B.getMessageById mid = .ok (some m) → B.forward mid cid = .ok () →
      forwardMessageHandler B true messageId chatId now =
        (⟨200, [("success", .bool true),
                ("message", .str "Message forwarded successfully"),
                ("originalMessageId", .str mid),
                ("targetChatId", .str cid),
                ("timestamp", .str now),
                ("messageType", .str m.msgType)]⟩,
         [.getMessageById mid, .forward mid cid])) := by
  refine ⟨?_, ?_, ?_⟩
  · rintro (h | h) <;> simp [forwardMessageHandler, h]
  · intro mid cid hm hc hmne hcne hlook
    subst hm; subst hc
    simp [forwardMessageHandler, strTruthy, hmne, hcne, hlook]
  · intro mid cid m hm hc hmne hcne hlook hfwd
    subst hm; subst hc
    simp [forwardMessageHandler, strTruthy, hmne, hcne, hlook, hfwd]

/-- Witness for C2 at the forward inputs given in the spec. -/
theorem C2_forward_witness :
    forwardMessageHandler okBackend true (some "false_111@c.us_ABC") (some "222@c.us")
        "2025-01-29T10:30:00.000Z" =
      (⟨200, [("success", .bool true),
              ("message", .str "Message forwarded successfully"),
              ("originalMessageId", .str "false_111@c.us_ABC"),
              ("targetChatId", .str "222@c.us"),
              ("timestamp", .str "2025-01-29T10:30:00.000Z"),
              ("messageType", .str "chat")]⟩,
       [.getMessageById "false_111@c.us_ABC",
        .forward "false_111@c.us_ABC" "222@c.us"]) :=
  (C2_forward okBackend (some "false_111@c.us_ABC") (some "222@c.us")
      "2025-01-29T10:30:00.000Z").2.2 "false_111@c.us_ABC" "222@c.us"
    ⟨"chat", some "hello", "111@c.us"⟩ rfl rfl (by decide) (by decide) rfl rfl

/-! ## C10 -/

/-- C10: the client handle, once set non-null by the first ready event,
is never cleared by any later lifecycle event; consequently, for every
request after the first ready signal — whatever events (disconnected,
auth_failure, error, ...) follow — the readiness gate passes
(status ≠ 503), work with valid fields is dispatched to the (possibly
stale) handle (non-empty backend trace), and /health reports
"connected" for the rest of the process lifetime. -/
theorem C10_handle_persistence (events extra : List LifecycleEvent) (now : String)
    (B : Backend) (body : SendMessageBody)
    (h : LifecycleEvent.ready ∈ events) :
    clientHandleSet (events ++ extra) = true ∧
    healthHandler (events ++ extra) now =
      ⟨200, [("status", .str "ok"), ("whatsapp", .str "connected"),
             ("timestamp", .str now)]⟩ ∧
    (sendMessageHandler B (clientHandleSet (events ++ extra)) body).fst.status ≠ 503 ∧
    (strTruthy body.chatId = true → strTruthy body.message = true →
      (sendMessageHandler B (clientHandleSet (events ++ extra)) body).snd ≠ []) := by
  have hb : clientHandleSet (events ++ extra) = true :=
    (clientHandleSet_iff _).mpr (List.mem_append_left extra h)
  have hmem : LifecycleEvent.ready ∈ events ++ extra := List.mem_append_left extra h
  refine ⟨hb, ?_, ?_, ?_⟩
  · rw [C9_health]
    simp [hmem]
  · rw [hb]
    cases h1 : strTruthy body.chatId with
    | false => simp [sendMessageHandler, h1]
    | true =>
      cases h2 : strTruthy body.message with
      | false => simp [sendMessageHandler, h1, h2]
      | true =>
        cases h3 : boolTruthy body.show_typing with
        | false =>
          simp only [sendMessageHandler, h1, h2, h3, if_true, if_false,
                     Bool.false_eq_true, if_neg, ite_false, ite_true]
          exact dispatchSend_status_ne_503 _ _ _ _ _ _ _
        | true =>
          simp only [sendMessageHandler, h1, h2, h3, if_true, ite_true]
          cases hg : B.getChatById (body.chatId.getD "") with
          | error e => simp [serverError]
          | ok u =>
            cases ht : B.sendStateTyping (body.chatId.getD "") with
            | error e => simp [serverError]
            | ok u2 => exact dispatchSend_status_ne_503 _ _ _ _ _ _ _
  · intro h1 h2
    rw [hb]
    cases h3 : boolTruthy body.show_typing with
    | false =>
      simp only [sendMessageHandler, h1, h2, h3, if_true, Bool.false_eq_true,
                 if_neg, ite_false, ite_true]
      exact dispatchSend_snd_ne_nil _ _ _ _ _ _ _
    | true =>
      simp only [sendMessageHandler, h1, h2, h3, if_true, ite_true]
      cases hg : B.getChatById (body.chatId.getD "") with
      | error e => simp
      | ok u =>
        cases ht : B.sendStateTyping (body.chatId.getD "") with
        | error e => simp
        | ok u2 => exact dispatchSend_snd_ne_nil _ _ _ _ _ _ _

/-- Witness for C10: after [ready, disconnected] the gate passes and a
valid request is dispatched. -/
theorem C10_handle_persistence_witness :
    clientHandleSet ([.ready] ++ [.disconnected]) = true ∧
    (sendMessageHandler okBackend (clientHandleSet ([.ready] ++ [.disconnected]))
      { chatId := some "111@c.us", message := some "hi" }).snd ≠ [] := by
  have h := C10_handle_persistence [.ready] [.disconnected] "t" okBackend
    { chatId := some "111@c.us", message := some "hi" } (by decide)
  exact ⟨h.1, h.2.2.2 (by decide) (by decide)⟩

/-! ## Trace helper lemmas -/

theorem mem_pre_dispatchSend (B : Backend) (label chatId : String) (payload : Payload)
    (options : SendOptions) (typedChat : Bool) (pre : List Call) (c : Call)
    (hc : c ∈ pre) :
    c ∈ (dispatchSend B label chatId payload options typedChat pre).snd := by
  unfold dispatchSend
  cases B.sendMessage chatId payload options with
  | error e => simp [hc]
  | ok m =>
    cases typedChat with
    | false => simp [hc]
    | true =>
      cases B.clearState chatId with
      | error e => simp [hc]
      | ok u => simp [hc]

theorem clearState_in_dispatchSend_true (B : Backend) (label chatId : String)
    (payload : Payload) (options : SendOptions) (pre : List Call) (r : SentMessage)
    (hs : B.sendMessage chatId payload options = .ok r) :
    Call.clearState chatId ∈ (dispatchSend B label chatId payload options true pre).snd := by
  unfold dispatchSend
  rw [hs]
  cases B.clearState chatId with
  | error e => simp
  | ok u => simp

theorem clearState_not_in_dispatchSend_false (B : Backend) (label chatId : String)
    (payload : Payload) (options : SendOptions) (pre : List Call) (cid : String)
    (hpre : Call.clearState cid ∉ pre) :
    Call.clearState cid ∉ (dispatchSend B label chatId payload options false pre).snd := by
  unfold dispatchSend
  cases B.sendMessage chatId payload options with
  | error e => simp [hpre]
  | ok m => simp [hpre]

theorem clearState_not_in_mediaDispatch_false (B : Backend) (chatId url : String)
    (options : SendOptions) (pre : List Call) (cid : String)
    (hpre : Call.clearState cid ∉ pre) :
    Call.clearState cid ∉ (sendMediaIndexDispatch B chatId url options false pre).snd := by
  unfold sendMediaIndexDispatch
  cases B.fromUrl url with
  | error e => simp [hpre]
  | ok media =>
    exact clearState_not_in_dispatchSend_false B _ chatId (.media media) options _ cid
      (by simp [hpre])

theorem mem_pre_mediaDispatch (B : Backend) (chatId url : String) (options : SendOptions)
    (typedChat : Bool) (pre : List Call) (c : Call) (hc : c ∈ pre) :
    c ∈ (sendMediaIndexDispatch B chatId url options typedChat pre).snd := by
  unfold sendMediaIndexDispatch
  cases B.fromUrl url with
  | error e => simp [hc]
  | ok media =>
    exact mem_pre_dispatchSend B _ chatId (.media media) options typedChat _ c (by simp [hc])

theorem typing_not_in_mediaDispatch_false (B : Backend) (chatId url : String)
    (options : SendOptions) (pre : List Call) (cid : String)
    (hpre : Call.sendStateTyping cid ∉ pre) :
    Call.sendStateTyping cid ∉ (sendMediaIndexDispatch B chatId url options false pre).snd := by
  unfold sendMediaIndexDispatch dispatchSend
  cases B.fromUrl url with
  | error e => simp [hpre]
  | ok media =>
    rcases hs : B.sendMessage chatId (.media media) options with e | m <;> simp [hs, hpre]

theorem wait_not_in_mediaDispatch (B : Backend) (chatId url : String)
    (options : SendOptions) (typedChat : Bool) (pre : List Call) (w : Int)
    (hpre : Call.wait w ∉ pre) :
    Call.wait w ∉ (sendMediaIndexDispatch B chatId url options typedChat pre).snd := by
  unfold sendMediaIndexDispatch dispatchSend
  cases B.fromUrl url with
  | error e => simp [hpre]
  | ok media =>
    rcases hs : B.sendMessage chatId (.media media) options with e | m
    · simp [hs, hpre]
    · cases typedChat with
      | false => simp [hs, hpre]
      | true =>
        rcases hc : B.clearState chatId with e | u <;> simp [hs, hc, hpre]

theorem typing_not_in_fallback (B : Backend) (chatId url : String) (options : SendOptions)
    (f : FileRef) (e1 : String) (pre : List Call) (cid : String)
    (hpre : Call.sendStateTyping cid ∉ pre) :
    Call.sendStateTyping cid ∉ (sendMediaFallbackP0 B chatId url options f e1 pre).snd := by
  unfold sendMediaFallbackP0
  cases B.axiosGet url with
  | error e2 => simp [hpre]
  | ok resp =>
    rcases hs : B.sendMessage chatId (.media (fallbackMedia f resp)) options with e2 | m <;>
      simp [hs, hpre]

/-! ## Concrete scenario material -/

/-- The media object the always-succeeding primary fetch produces. -/
def mediaA : MessageMedia := ⟨"image/png", "QUJD", "pic.png"⟩

/-- A backend whose first (primary-path) send fails while everything
else succeeds: `fromUrl` yields `mediaA`, sending `mediaA` throws, the
raw fetch succeeds, and sending the manually constructed fallback media
succeeds. -/
def sendFailBackend : Backend where
  getChatById := fun _ => .ok ()
  sendStateTyping := fun _ => .ok ()
  clearState := fun _ => .ok ()
  sendMessage := fun _ p _ =>
    match p with
    | .media m => if m = mediaA then .error "primary send failed" else .ok ⟨"fallbackMsg", 222⟩
    | .text _ => .ok ⟨"textMsg", 1⟩
  getMessageById := fun _ => .ok none
  forward := fun _ _ => .ok ()
  fromUrl := fun _ => .ok mediaA
  axiosGet := fun _ => .ok ⟨"RkFMTEJBQ0s=", some "image/jpeg"⟩

/-- A backend on which every outbound send throws (typing and chat
lookup succeed). -/
def sendThrowBackend : Backend where
  getChatById := fun _ => .ok ()
  sendStateTyping := fun _ => .ok ()
  clearState := fun _ => .ok ()
  sendMessage := fun _ _ _ => .error "send exploded"
  getMessageById := fun _ => .ok none
  forward := fun _ _ => .ok ()
  fromUrl := fun _ => .ok mediaA
  axiosGet := fun _ => .error "network down"

/-- A valid media request body by URL. -/
def mediaBody1 : SendMediaBody :=
  { chatId := some "111@c.us", file := some { url := some "http://x/pic" } }

/-- A valid text request body with the typing bracket requested. -/
def typingBody : SendMessageBody :=
  { chatId := some "111@c.us", message := some "hi", show_typing := some true }

/-- A valid text request body requesting typing with duration 0. -/
def zeroDurationBody : SendMessageBody :=
  { chatId := some "111@c.us", message := some "hi", show_typing := some true,
    typing_duration := some 0 }

/-! ## C5 -/

/-- C5 counterexample: a sendMessage request with the presence bracket
active (composing signal sent, trace contains `sendStateTyping`) whose
dispatch fails takes the failure exit (status 500) with NO idle/clear
signal issued — the catch branch (index.js:311-317) does not clear the
typing state, contradicting the claim that the idle signal is issued on
both the success and the failure exit. -/
theorem C5_counterexample :
    Call.sendStateTyping "111@c.us" ∈
      (sendMessageHandler sendThrowBackend true typingBody).snd ∧
    (sendMessageHandler sendThrowBackend true typingBody).fst.status = 500 ∧
    Call.clearState "111@c.us" ∉
      (sendMessageHandler sendThrowBackend true typingBody).snd := by
  refine ⟨by decide, by decide, by decide⟩

/-- C5 amended: when the composing signal was sent, the idle/clear
signal is issued after dispatch on the success exit only; on the
failure exit (dispatch throws) no clear is issued; and for every
request where show_typing is false or absent, no presence-clear call is
ever issued (shown for both the text and the media send handler of
index.js). -/
theorem C5_amended (B : Backend) (smBody : SendMessageBody) (mdBody : SendMediaBody)
    (cid : String) :
    (boolTruthy smBody.show_typing = false →
      Call.clearState cid ∉ (sendMessageHandler B true smBody).snd) ∧
    (boolTruthy mdBody.show_typing = false →
      Call.clearState cid ∉ (sendMediaIndexHandler B true mdBody).snd) ∧
    (∀ msg r, smBody.chatId = some cid → cid ≠ "" →
      smBody.message = some msg → msg ≠ "" →
      smBody.reply_to = none → smBody.show_typing = some true →
      B.getChatById cid = .ok () → B.sendStateTyping cid = .ok () →
      B.sendMessage cid (.text msg) {} = .ok r →
      Call.clearState cid ∈ (sendMessageHandler B true smBody).snd) ∧
    (∀ msg e, smBody.chatId = some cid → cid ≠ "" →
      smBody.message = some msg → msg ≠ "" →
      smBody.reply_to = none → smBody.show_typing = some true →
      B.getChatById cid = .ok () → B.sendStateTyping cid = .ok () →
      B.sendMessage cid (.text msg) {} = .error e →
      Call.clearState cid ∉ (sendMessageHandler B true smBody).snd) := by
  refine ⟨?_, ?_, ?_, ?_⟩
  · intro hst
    cases h1 : strTruthy smBody.chatId with
    | false => simp [sendMessageHandler, h1]
    | true =>
      cases h2 : strTruthy smBody.message with
      | false => simp [sendMessageHandler, h1, h2]
      | true =>
        simp only [sendMessageHandler, h1, h2, hst, Bool.false_eq_true, if_false,
                   ite_true, ite_false, if_true]
        exact clearState_not_in_dispatchSend_false B _ _ _ _ _ cid (by simp)
  · intro hst
    cases h1 : strTruthy mdBody.chatId with
    | false => simp [sendMediaIndexHandler, h1]
    | true =>
      cases hfile : mdBody.file with
      | none => simp [sendMediaIndexHandler, h1, hfile]
      | some f =>
        cases h2 : strTruthy f.url with
        | false => simp [sendMediaIndexHandler, h1, hfile, h2]
        | true =>
          simp only [sendMediaIndexHandler, h1, hfile, h2, hst, Bool.false_and,
                     Bool.false_eq_true, if_false, ite_true, ite_false, if_true]
          exact clearState_not_in_mediaDispatch_false B _ _ _ _ cid (by simp)
  · intro msg r hcid hcne hmsg hmne hrt hst hg ht hs
    simp only [sendMessageHandler, hcid, hmsg, hrt, hst, strTruthy, boolTruthy,
               Option.getD_some, hcne, hmne, decide_not, ite_true, if_true,
               decide_eq_true_eq, ne_eq, not_false_eq_true, Bool.not_false,
               Bool.false_eq_true, if_false, ite_false, hg, ht]
    exact clearState_in_dispatchSend_true B _ cid (.text msg) _ _ r hs
  · intro msg e hcid hcne hmsg hmne hrt hst hg ht hs
    simp only [sendMessageHandler, hcid, hmsg, hrt, hst, strTruthy, boolTruthy,
               Option.getD_some, hcne, hmne, decide_not, ite_true, if_true,
               decide_eq_true_eq, ne_eq, not_false_eq_true, Bool.not_false,
               Bool.false_eq_true, if_false, ite_false, hg, ht]
    unfold dispatchSend
    rw [hs]
    simp

/-- Witness for C5 amended: concrete success run issues the clear. -/
theorem C5_amended_witness :
    Call.clearState "111@c.us" ∈ (sendMessageHandler okBackend true typingBody).snd := by
  exact (C5_amended okBackend typingBody {} "111@c.us").2.2.1 "hi" ⟨"msg1", 111⟩
    rfl (by decide) rfl (by decide) rfl rfl rfl rfl rfl

/-! ## C6 -/

/-- C6 counterexample: a sendMessage request with show_typing and the
non-positive duration 0 does NOT skip the presence bracket — the
composing signal is sent and held for the default 2000 ms
(`typing_duration || 2000` treats 0 as absent, index.js:286), while the
claim requires the entire bracket to be skipped for non-positive
durations. -/
theorem C6_counterexample :
    Call.sendStateTyping "111@c.us" ∈
      (sendMessageHandler okBackend true zeroDurationBody).snd ∧
    Call.wait 2000 ∈ (sendMessageHandler okBackend true zeroDurationBody).snd := by
  refine ⟨by decide, by decide⟩

/-- C6 amended: the typing bracket differs between endpoints.  For text
sends (index.js /api/sendMessage; part_000 /sendMessage is identical),
whenever show_typing is truthy the composing signal is sent and held
for `typing_duration || 2000` — the duration given by the caller when it is a
non-zero value (negative ones included, no skipping), and the default
2000 ms when it is absent or 0.  For the index.js /api/sendMedia
variant, the composing signal is sent only when show_typing is truthy
AND typing_duration > 0, held for exactly that duration, with no
default; when the duration is absent or non-positive no composing
signal and no hold happen at all.  In the part_000 /api/sendMedia
variant the bracket is commented out, so no composing signal is ever
sent. -/
theorem C6_amended (B : Backend) (smBody : SendMessageBody) (mdBody : SendMediaBody)
    (cid : String) :
    (∀ msg, smBody.chatId = some cid → cid ≠ "" →
      smBody.message = some msg → msg ≠ "" →
      smBody.show_typing = some true →
      B.getChatById cid = .ok () → B.sendStateTyping cid = .ok () →
      Call.sendStateTyping cid ∈ (sendMessageHandler B true smBody).snd ∧
      Call.wait (jsOrInt smBody.typing_duration 2000) ∈
        (sendMessageHandler B true smBody).snd) ∧
    (jsOrInt none 2000 = 2000 ∧ jsOrInt (some 0) 2000 = 2000 ∧
      ∀ n : Int, n ≠ 0 → jsOrInt (some n) 2000 = n) ∧
    (∀ f n, mdBody.chatId = some cid → cid ≠ "" →
      mdBody.file = some f → (∃ u, f.url = some u ∧ u ≠ "") →
      mdBody.show_typing = some true → mdBody.typing_duration = some n → 0 < n →
      B.getChatById cid = .ok () → B.sendStateTyping cid = .ok () →
      Call.sendStateTyping cid ∈ (sendMediaIndexHandler B true mdBody).snd ∧
      Call.wait n ∈ (sendMediaIndexHandler B true mdBody).snd) ∧
    (durationPos mdBody.typing_duration = false →
      Call.sendStateTyping cid ∉ (sendMediaIndexHandler B true mdBody).snd ∧
      ∀ w : Int, Call.wait w ∉ (sendMediaIndexHandler B true mdBody).snd) ∧
    (Call.sendStateTyping cid ∉ (apiSendMediaP0Handler B true mdBody).snd) := by
  refine ⟨?_, ⟨rfl, rfl, fun n hn => by simp [jsOrInt, hn]⟩, ?_, ?_, ?_⟩
  · intro msg hcid hcne hmsg hmne hst hg ht
    simp only [sendMessageHandler, hcid, hmsg, hst, strTruthy, boolTruthy,
               Option.getD_some, hcne, hmne, decide_not, ite_true, if_true,
               decide_eq_true_eq, ne_eq, not_false_eq_true, Bool.not_false,
               Bool.false_eq_true, if_false, ite_false, hg, ht]
    constructor
    · exact mem_pre_dispatchSend B _ cid _ _ _ _ _ (by simp)
    · exact mem_pre_dispatchSend B _ cid _ _ _ _ _ (by simp)
  · intro f n hcid hcne hfile hurl hst hdur hpos hg ht
    rcases hurl with ⟨u, hu, hune⟩
    simp only [sendMediaIndexHandler, hcid, hfile, hu, hst, hdur, strTruthy,
               boolTruthy, durationPos, Option.getD_some, hcne, hune, decide_not,
               ite_true, if_true, decide_eq_true_eq, ne_eq, not_false_eq_true,
               Bool.not_false, hpos, Bool.and_self, hg, ht]
    constructor
    · refine mem_pre_mediaDispatch B cid u _ _ _ _ (by simp)
    · refine mem_pre_mediaDispatch B cid u _ _ _ _ (by simp)
  · intro hdur
    constructor
    · cases h1 : strTruthy mdBody.chatId with
      | false => simp [sendMediaIndexHandler, h1]
      | true =>
        cases hfile : mdBody.file with
        | none => simp [sendMediaIndexHandler, h1, hfile]
        | some f =>
          cases h2 : strTruthy f.url with
          | false => simp [sendMediaIndexHandler, h1, hfile, h2]
          | true =>
            simp only [sendMediaIndexHandler, h1, hfile, h2, hdur, Bool.and_false,
                       Bool.false_eq_true, if_false, ite_true, ite_false, if_true]
            exact typing_not_in_mediaDispatch_false B _ _ _ _ cid (by simp)
    · intro w
      cases h1 : strTruthy mdBody.chatId with
      | false => simp [sendMediaIndexHandler, h1]
      | true =>
        cases hfile : mdBody.file with
        | none => simp [sendMediaIndexHandler, h1, hfile]
        | some f =>
          cases h2 : strTruthy f.url with
          | false => simp [sendMediaIndexHandler, h1, hfile, h2]
          | true =>
            simp only [sendMediaIndexHandler, h1, hfile, h2, hdur, Bool.and_false,
                       Bool.false_eq_true, if_false, ite_true, ite_false, if_true]
            exact wait_not_in_mediaDispatch B _ _ _ _ _ w (by simp)
  · cases h1 : strTruthy mdBody.chatId with
    | false => simp [apiSendMediaP0Handler, h1]
    | true =>
      cases hfile : mdBody.file with
      | none => simp [apiSendMediaP0Handler, h1, hfile]
      | some f =>
        cases h2 : strTruthy f.url with
        | false => simp [apiSendMediaP0Handler, h1, hfile, h2]
        | true =>
          simp only [apiSendMediaP0Handler, h1, hfile, h2, ite_true, if_true]
          cases hfu : B.fromUrl (f.url.getD "") with
          | error e1 =>
            simp only [hfu]
            refine typing_not_in_fallback B _ _ _ f e1 _ cid ?_
            simp
          | ok media =>
            simp only [hfu]
            cases hs : B.sendMessage (mdBody.chatId.getD "") (.media media)
                { caption := some (mdBody.caption.getD "") } with
            | error e1 =>
              simp only [hs]
              refine typing_not_in_fallback B _ _ _ f e1 _ cid ?_
              simp
            | ok m => simp [hs]

/-- Witness for C6 amended: on a concrete valid typing request the
composing signal and the 2000 ms default hold are both issued. -/
theorem C6_amended_witness :
    Call.sendStateTyping "111@c.us" ∈ (sendMessageHandler okBackend true typingBody).snd ∧
    Call.wait (jsOrInt typingBody.typing_duration 2000) ∈
      (sendMessageHandler okBackend true typingBody).snd :=
  (C6_amended okBackend typingBody {} "111@c.us").1 "hi" rfl (by decide) rfl
    (by decide) rfl rfl rfl

/-! ## C3 -/

theorem axiosGet_in_fallback (B : Backend) (chatId url : String) (options : SendOptions)
    (f : FileRef) (e1 : String) (pre : List Call) :
    Call.axiosGet url ∈ (sendMediaFallbackP0 B chatId url options f e1 pre).snd := by
  unfold sendMediaFallbackP0
  cases B.axiosGet url with
  | error e2 => simp
  | ok resp =>
    rcases hs : B.sendMessage chatId (.media (fallbackMedia f resp)) options with e2 | m <;>
      simp [hs]

/-- C3 counterexample: on a backend whose primary one-shot fetch
SUCCEEDS but whose first send throws, the fallback download strategy is
attempted anyway (the trace contains the raw `axios.get` fetch) and the
request even succeeds with 200 — the catch that enters the fallback
(part_000:153) covers the send as well, not only the fetch, so "the
fallback is attempted only when the primary fetch strategy raises an
error" is false. -/
theorem C3_counterexample :
    sendFailBackend.fromUrl "http://x/pic" = .ok mediaA ∧
    Call.axiosGet "http://x/pic" ∈ (apiSendMediaP0Handler sendFailBackend true mediaBody1).snd ∧
    (apiSendMediaP0Handler sendFailBackend true mediaBody1).fst.status = 200 := by
  refine ⟨rfl, by decide, by decide⟩

/-- C3 amended: for every sendMedia request by URL (part_000
/api/sendMedia), the fallback download strategy (raw byte fetch
constructing the payload from bytes, response headers and hints, with
unspecified mime-type treated as application/octet-stream) is attempted
exactly when the primary path — the one-shot fetch OR the subsequent
send of its result — raises an error; if the fallback succeeds the
response is 200 {success:true, messageId, timestamp}, and if the
primary path and the fallback both fail the response is 500 with one
aggregated error message embedding both underlying failure messages. -/
theorem C3_amended (B : Backend) (body : SendMediaBody) (f : FileRef)
    (cid url : String)
    (hcid : body.chatId = some cid) (hcne : cid ≠ "")
    (hf : body.file = some f) (hu : f.url = some url) (hune : url ≠ "") :
    (∀ r, primaryOutcome B cid { caption := some (body.caption.getD "") } url = .ok r →
      (apiSendMediaP0Handler B true body).fst = okSendResponse r ∧
      Call.axiosGet url ∉ (apiSendMediaP0Handler B true body).snd) ∧
    (∀ e1, primaryOutcome B cid { caption := some (body.caption.getD "") } url = .error e1 →
      Call.axiosGet url ∈ (apiSendMediaP0Handler B true body).snd) ∧
    (∀ e1 resp r,
      primaryOutcome B cid { caption := some (body.caption.getD "") } url = .error e1 →
      B.axiosGet url = .ok resp →
      B.sendMessage cid (.media (fallbackMedia f resp))
          { caption := some (body.caption.getD "") } = .ok r →
      (apiSendMediaP0Handler B true body).fst = okSendResponse r) ∧
    (∀ e1 e2,
      primaryOutcome B cid { caption := some (body.caption.getD "") } url = .error e1 →
      B.axiosGet url = .error e2 →
      (apiSendMediaP0Handler B true body).fst =
        serverError "Failed to send media"
          ("Media sending failed: " ++ e1 ++ ". Fallback also failed: " ++ e2)) ∧
    (∀ e1 resp e2,
      primaryOutcome B cid { caption := some (body.caption.getD "") } url = .error e1 →
      B.axiosGet url = .ok resp →
      B.sendMessage cid (.media (fallbackMedia f resp))
          { caption := some (body.caption.getD "") } = .error e2 →
      (apiSendMediaP0Handler B true body).fst =
        serverError "Failed to send media"
          ("Media sending failed: " ++ e1 ++ ". Fallback also failed: " ++ e2)) ∧
    (∀ resp : FetchResp, f.mimetype = none → resp.contentType = none →
      (fallbackMedia f resp).mimetype = "application/octet-stream") := by
  have hsimp :
      ∀ x : Except String MessageMedia, B.fromUrl url = x →
      apiSendMediaP0Handler B true body =
        (match x with
          | .ok media =>
            match B.sendMessage cid (.media media)
                { caption := some (body.caption.getD "") } with
            | .ok m =>
              (okSendResponse m,
               [.fromUrl url, .sendMessage cid (.media media)
                  { caption := some (body.caption.getD "") }])
            | .error e1 =>
              sendMediaFallbackP0 B cid url { caption := some (body.caption.getD "") } f e1
                [.fromUrl url, .sendMessage cid (.media media)
                   { caption := some (body.caption.getD "") }]
          | .error e1 =>
            sendMediaFallbackP0 B cid url { caption := some (body.caption.getD "") } f e1
              [.fromUrl url]) := by
    intro x hx
    simp only [apiSendMediaP0Handler, hcid, hf, hu, strTruthy, Option.getD_some,
               decide_eq_true_eq, ne_eq, hcne, hune, not_false_eq_true, decide_not,
               Bool.not_false, ite_true, if_true, hx]
  refine ⟨?_, ?_, ?_, ?_, ?_, ?_⟩
  · intro r hpo
    unfold primaryOutcome at hpo
    cases hfu : B.fromUrl url with
    | error e =>
      rw [hfu] at hpo
      have hpo2 : (Except.error e : Except String SentMessage) = .ok r := hpo
      cases hpo2
    | ok media =>
      rw [hfu] at hpo
      have hpo2 : B.sendMessage cid (.media media)
          { caption := some (body.caption.getD "") } = .ok r := hpo
      simp only [hsimp (.ok media) hfu, hpo2]
      exact ⟨by simp, by simp⟩
  · intro e1 hpo
    unfold primaryOutcome at hpo
    cases hfu : B.fromUrl url with
    | error e =>
      rw [hfu] at hpo
      have hpo2 : (Except.error e : Except String SentMessage) = .error e1 := hpo
      have he : e = e1 := by injection hpo2
      subst he
      simp only [hsimp (.error e) hfu]
      exact axiosGet_in_fallback B cid url _ f e _
    | ok media =>
      rw [hfu] at hpo
      have hpo2 : B.sendMessage cid (.media media)
          { caption := some (body.caption.getD "") } = .error e1 := hpo
      simp only [hsimp (.ok media) hfu, hpo2]
      exact axiosGet_in_fallback B cid url _ f e1 _
  · intro e1 resp r hpo hax hsend
    unfold primaryOutcome at hpo
    cases hfu : B.fromUrl url with
    | error e =>
      rw [hfu] at hpo
      have hpo2 : (Except.error e : Except String SentMessage) = .error e1 := hpo
      have he : e = e1 := by injection hpo2
      subst he
      simp only [hsimp (.error e) hfu]
      simp [sendMediaFallbackP0, hax, hsend]
    | ok media =>
      rw [hfu] at hpo
      have hpo2 : B.sendMessage cid (.media media)
          { caption := some (body.caption.getD "") } = .error e1 := hpo
      simp only [hsimp (.ok media) hfu, hpo2]
      simp [sendMediaFallbackP0, hax, hsend]
  · intro e1 e2 hpo hax
    unfold primaryOutcome at hpo
    cases hfu : B.fromUrl url with
    | error e =>
      rw [hfu] at hpo
      have hpo2 : (Except.error e : Except String SentMessage) = .error e1 := hpo
      have he : e = e1 := by injection hpo2
      subst he
      simp only [hsimp (.error e) hfu]
      simp [sendMediaFallbackP0, hax]
    | ok media =>
      rw [hfu] at hpo
      have hpo2 : B.sendMessage cid (.media media)
          { caption := some (body.caption.getD "") } = .error e1 := hpo
      simp only [hsimp (.ok media) hfu, hpo2]
      simp [sendMediaFallbackP0, hax]
  · intro e1 resp e2 hpo hax hsend
    unfold primaryOutcome at hpo
    cases hfu : B.fromUrl url with
    | error e =>
      rw [hfu] at hpo
      have hpo2 : (Except.error e : Except String SentMessage) = .error e1 := hpo
      have he : e = e1 := by injection hpo2
      subst he
      simp only [hsimp (.error e) hfu]
      simp [sendMediaFallbackP0, hax, hsend]
    | ok media =>
      rw [hfu] at hpo
      have hpo2 : B.sendMessage cid (.media media)
          { caption := some (body.caption.getD "") } = .error e1 := hpo
      simp only [hsimp (.ok media) hfu, hpo2]
      simp [sendMediaFallbackP0, hax, hsend]
  · intro resp hm hct
    simp [fallbackMedia, jsOrStr, hm, hct]

/-- Witness for C3 amended: on the all-success backend the primary path
succeeds, the response is the 200 success body, and the fallback fetch
is never attempted. -/
theorem C3_amended_witness :
    (apiSendMediaP0Handler okBackend true mediaBody1).fst = okSendResponse ⟨"msg1", 111⟩ ∧
    Call.axiosGet "http://x/pic" ∉ (apiSendMediaP0Handler okBackend true mediaBody1).snd := by
  exact (C3_amended okBackend mediaBody1 { url := some "http://x/pic" } "111@c.us"
      "http://x/pic" rfl (by decide) rfl rfl (by decide)).1 ⟨"msg1", 111⟩ rfl

/-! ## C4 -/

theorem countSends_fallback_le (B : Backend) (chatId url : String) (options : SendOptions)
    (f : FileRef) (e1 : String) (pre : List Call) :
    countSends (sendMediaFallbackP0 B chatId url options f e1 pre).snd ≤
      countSends pre + 1 := by
  unfold sendMediaFallbackP0
  cases B.axiosGet url with
  | error e2 =>
    simp [countSends_append, countSends, List.countP_cons, List.countP_nil, isSendCall]
  | ok resp =>
    rcases hs : B.sendMessage chatId (.media (fallbackMedia f resp)) options with e2 | m <;>
      simp [hs, countSends_append, countSends, List.countP_cons, List.countP_nil, isSendCall]

/-- C4 counterexample: in part_000 /api/sendMedia a failed outbound
send IS retried automatically — the primary send fails, the fallback
path re-fetches and re-sends (two `sendMessage` invocations in the
trace), and because the retry succeeds the original failure is reported
to the caller zero times (the response is 200), contradicting both
halves of the claim. -/
theorem C4_counterexample :
    sendFailBackend.sendMessage "111@c.us" (.media mediaA) { caption := some "" } =
      .error "primary send failed" ∧
    (apiSendMediaP0Handler sendFailBackend true mediaBody1).fst.status = 200 ∧
    countSends (apiSendMediaP0Handler sendFailBackend true mediaBody1).snd = 2 := by
  refine ⟨rfl, by decide, by decide⟩

/-- C4 amended: outside the part_000 /api/sendMedia fallback no
operation is retried — the text-send handler issues at most one
outbound send and the forward handler issues none — while the part_000
/api/sendMedia handler issues at most two (the single fallback
re-attempt after a primary-path failure).  Error responses carry the
original backend error message text verbatim in the `message` field
next to a fixed error label: shown for a failing text dispatch, and for
the media double failure, where the one aggregated message embeds both
original messages. -/
theorem C4_amended (B : Backend) (smBody : SendMessageBody) (mdBody : SendMediaBody)
    (fwdMessageId fwdChatId : Option String) (now : String) :
    countSends (sendMessageHandler B true smBody).snd ≤ 1 ∧
    countSends (forwardMessageHandler B true fwdMessageId fwdChatId now).snd = 0 ∧
    countSends (apiSendMediaP0Handler B true mdBody).snd ≤ 2 ∧
    (∀ cid msg e, smBody.chatId = some cid → cid ≠ "" →
      smBody.message = some msg → msg ≠ "" →
      smBody.reply_to = none → smBody.show_typing = none →
      B.sendMessage cid (.text msg) {} = .error e →
      (sendMessageHandler B true smBody).fst = serverError "Failed to send message" e) ∧
    (∀ f cid url e1 e2, mdBody.chatId = some cid → cid ≠ "" →
      mdBody.file = some f → f.url = some url → url ≠ "" →
      primaryOutcome B cid { caption := some (mdBody.caption.getD "") } url = .error e1 →
      B.axiosGet url = .error e2 →
      (apiSendMediaP0Handler B true mdBody).fst =
        serverError "Failed to send media"
          ("Media sending failed: " ++ e1 ++ ". Fallback also failed: " ++ e2)) := by
  refine ⟨?_, ?_, ?_, ?_, ?_⟩
  · cases h1 : strTruthy smBody.chatId with
    | false => simp [sendMessageHandler, h1, countSends]
    | true =>
      cases h2 : strTruthy smBody.message with
      | false => simp [sendMessageHandler, h1, h2, countSends]
      | true =>
        cases h3 : boolTruthy smBody.show_typing with
        | false =>
          simp only [sendMessageHandler, h1, h2, h3, Bool.false_eq_true, if_false,
                     ite_false, ite_true, if_true]
          rw [countSends_dispatchSend]
          simp [countSends]
        | true =>
          simp only [sendMessageHandler, h1, h2, h3, ite_true, if_true]
          cases hg : B.getChatById (smBody.chatId.getD "") with
          | error e => simp [hg, countSends, List.countP_cons, List.countP_nil, isSendCall]
          | ok u =>
            simp only [hg]
            cases ht : B.sendStateTyping (smBody.chatId.getD "") with
            | error e =>
              simp [ht, countSends, List.countP_cons, List.countP_nil, isSendCall]
            | ok u2 =>
              simp only [ht]
              rw [countSends_dispatchSend]
              simp [countSends, List.countP_cons, List.countP_nil, isSendCall]
  · cases hv : (strTruthy fwdMessageId && strTruthy fwdChatId) with
    | false => simp [forwardMessageHandler, hv, countSends]
    | true =>
      cases hm : B.getMessageById (fwdMessageId.getD "") with
      | error e =>
        simp [forwardMessageHandler, hv, hm, countSends, List.countP_cons,
              List.countP_nil, isSendCall]
      | ok o =>
        cases o with
        | none =>
          simp [forwardMessageHandler, hv, hm, countSends, List.countP_cons,
                List.countP_nil, isSendCall]
        | some m =>
          rcases hf2 : B.forward (fwdMessageId.getD "") (fwdChatId.getD "") with e | u <;>
            simp [forwardMessageHandler, hv, hm, hf2, countSends, List.countP_cons,
                  List.countP_nil, isSendCall]
  · cases h1 : strTruthy mdBody.chatId with
    | false => simp [apiSendMediaP0Handler, h1, countSends]
    | true =>
      cases hfile : mdBody.file with
      | none => simp [apiSendMediaP0Handler, h1, hfile, countSends]
      | some f =>
        cases h2 : strTruthy f.url with
        | false => simp [apiSendMediaP0Handler, h1, hfile, h2, countSends]
        | true =>
          simp only [apiSendMediaP0Handler, h1, hfile, h2, ite_true, if_true]
          cases hfu : B.fromUrl (f.url.getD "") with
          | error e1 =>
            simp only [hfu]
            refine le_trans (countSends_fallback_le B _ _ _ f e1 _) ?_
            simp [countSends, List.countP_cons, List.countP_nil, isSendCall]
          | ok media =>
            simp only [hfu]
            rcases hs : B.sendMessage (mdBody.chatId.getD "") (.media media)
                { caption := some (mdBody.caption.getD "") } with e1 | m
            · simp only [hs]
              refine le_trans (countSends_fallback_le B _ _ _ f e1 _) ?_
              simp [countSends, List.countP_cons, List.countP_nil, isSendCall]
            · simp [hs, countSends, List.countP_cons, List.countP_nil, isSendCall]
  · intro cid msg e hcid hcne hmsg hmne hrt hst hsend
    simp only [sendMessageHandler, hcid, hmsg, hrt, hst, strTruthy, boolTruthy,
               Option.getD_some, hcne, hmne, decide_not, ite_true, if_true,
               decide_eq_true_eq, ne_eq, not_false_eq_true, Bool.not_false,
               Bool.false_eq_true, if_false, ite_false]
    unfold dispatchSend
    rw [hsend]
  · intro f cid url e1 e2 hcid hcne hfile hu hune hpo hax
    unfold primaryOutcome at hpo
    cases hfu : B.fromUrl url with
    | error e =>
      rw [hfu] at hpo
      have hpo2 : (Except.error e : Except String SentMessage) = .error e1 := hpo
      have he : e = e1 := by injection hpo2
      subst he
      simp only [apiSendMediaP0Handler, hcid, hfile, hu, strTruthy, Option.getD_some,
                 decide_eq_true_eq, ne_eq, hcne, hune, not_false_eq_true, decide_not,
                 Bool.not_false, ite_true, if_true, hfu]
      simp [sendMediaFallbackP0, hax]
    | ok media =>
      rw [hfu] at hpo
      have hpo2 : B.sendMessage cid (.media media)
          { caption := some (mdBody.caption.getD "") } = .error e1 := hpo
      simp only [apiSendMediaP0Handler, hcid, hfile, hu, strTruthy, Option.getD_some,
                 decide_eq_true_eq, ne_eq, hcne, hune, not_false_eq_true, decide_not,
                 Bool.not_false, ite_true, if_true, hfu, hpo2]
      simp [sendMediaFallbackP0, hax]

/-- Witness for C4 amended on a concrete backend whose send throws: at
most one send is attempted by the text handler and the 500 body carries
the original error message verbatim. -/
theorem C4_amended_witness :
    countSends (sendMessageHandler sendThrowBackend true
        { chatId := some "111@c.us", message := some "hi" }).snd ≤ 1 ∧
    (sendMessageHandler sendThrowBackend true
        { chatId := some "111@c.us", message := some "hi" }).fst =
      serverError "Failed to send message" "send exploded" := by
  have h := C4_amended sendThrowBackend { chatId := some "111@c.us", message := some "hi" }
    {} none none "t"
  exact ⟨h.1, h.2.2.2.1 "111@c.us" "hi" "send exploded" rfl (by decide) rfl (by decide)
    rfl rfl rfl⟩

end WWeb
